import Mathlib

/-!
Shallow embedding of the document-processing backend
(`backend/app/routers/upload.py`, `backend/app/routers/analysis.py`,
`backend/app/services/ai_service.py`, `backend/app/services/file_service.py`)
and proofs of the specification claims about it.

Conventions used throughout:
* Python strings are Lean `String`s; Python `s.split()` (whitespace split,
  dropping empty tokens) is embedded as `pySplit` below, working on the
  code-point list of the string, which matches Python's code-point slicing
  and length semantics (`len`, `s[:n]`).
* The float token estimate `len(word) / 0.75` is embedded exactly as the
  rational `4 * len(word) / 3`; all comparisons against the budget `4000`
  are carried out scaled by `3` (so a word contributes `4 * len(word)` and
  the budget is `12000`), which is equivalent to the exact rational
  comparison.  (For the integer operands involved, IEEE double division is
  correctly rounded, so the float comparisons in the source agree with the
  exact rational ones at every input relevant to the claims.)
* Fallible Python code (raised exceptions) is embedded with `Except` /
  `Option`; external collaborators (the extraction library, the Gemini
  client) are parameters of the embedded functions.
-/

/-! ## Python string splitting (`str.split()` with no separator) -/

/-- ASCII whitespace recognised by Python's `str.split()` (the inputs in the
claims are ASCII, so the ASCII subset of Python's unicode whitespace
suffices). -/
def isPySpace (c : Char) : Bool :=
  c = ' ' || c = '\t' || c = '\n' || c = '\x0b' || c = '\x0c' || c = '\r'

/-- Accumulator-passing worker for `str.split()`: `cur` is the word being
read (in order), whitespace separates words, empty words are dropped. -/
def splitWAux : List Char → List Char → List (List Char)
  | cur, [] => if cur = [] then [] else [cur]
  | cur, c :: cs =>
    if isPySpace c then
      if cur = [] then splitWAux [] cs else cur :: splitWAux [] cs
    else
      splitWAux (cur ++ [c]) cs

/-- Python `text.split()` on the code-point list. -/
def pySplitL (l : List Char) : List (List Char) :=
  splitWAux [] l

/-- Python `text.split()` at the `String` level. -/
def pySplit (s : String) : List String :=
  (pySplitL s.toList).map (fun w => String.mk w)

/-- Python `text.lower()` (ASCII case mapping, which covers every input the
claims exercise). -/
def strLower (s : String) : String :=
  String.mk (s.toList.map Char.toLower)

/-- Python `msg[:n]` (slicing by code points). -/
def pyTake (s : String) (n : Nat) : String :=
  String.mk (s.toList.take n)

/-! ## `file_service.detect_language`

Source (`backend/app/services/file_service.py`, lines 94-108):

```
if not text: return "unknown"
english_words = ["the", "and", "or", "but", "in", "on", "at", "to",
                 "for", "of", "with", "by"]
words = text.lower().split()[:100]
english_count = sum(1 for word in words if word in english_words)
if english_count / len(words) > 0.1: return "en"
return "unknown"
```

`english_count / len(words)` raises `ZeroDivisionError` when `words` is
empty, which happens exactly when `text` is non-empty but all whitespace;
the embedded function returns `none` there.  For `len(words) ≤ 100` the
float comparison `english_count / len(words) > 0.1` agrees with the exact
rational comparison, i.e. with `10 * english_count > len(words)`. -/

def englishWords : List String :=
  ["the", "and", "or", "but", "in", "on", "at", "to", "for", "of", "with", "by"]

def detect_language (text : String) : Option String :=
  if text = "" then some "unknown"
  else if ((pySplit (strLower text)).take 100).length = 0 then none
  else if ((pySplit (strLower text)).take 100).length <
      10 * ((pySplit (strLower text)).take 100).countP (fun w => englishWords.contains w) then
    some "en"
  else
    some "unknown"

/-! ## The processing pipeline (`backend/app/routers/upload.py`)

The `Document` row and the store writes the pipeline performs.  Each write
below is one `db.execute(update(...)); db.commit()` of the source: `progressW` is the body of `update_progress` (sets `current_stage`,
`progress`, `status`), `readyW` is the final update of the success path
(sets `extracted_text`, `text_length`, `language`, `status`,
`current_stage`, `progress`), and `errorW` is the final update of the error
path (sets `status` and `current_stage` only). -/

structure Doc where
  filename : String
  file_size : Nat
  upload_time : Nat
  status : String
  current_stage : String
  progress : Nat
  extracted_text : Option String
  text_length : Option Nat
  language : Option String
deriving DecidableEq

inductive StoreWrite where
  | progressW (stage : String) (progress : Nat) (status : String)
  | readyW (text : String) (tlen : Nat) (lang : String)
  | errorW (stage : String)
deriving DecidableEq

def applyWrite (d : Doc) : StoreWrite → Doc
  | .progressW st p s => { d with current_stage := st, progress := p, status := s }
  | .readyW t n lg =>
      { d with extracted_text := some t, text_length := some n, language := some lg,
               status := "ready", current_stage := "Ready for AI analysis", progress := 100 }
  | .errorW st => { d with status := "error", current_stage := st }

/-- The error-message truncation of the pipeline's `except` block:
`error_msg[:400] + "..."` when longer than 400 characters. -/
def truncateErr (msg : String) : String :=
  if msg.length > 400 then pyTake msg 400 ++ "..." else msg

/-- The two store writes of the pipeline's error path: `update_progress`
with the capped message, progress 0 and status "error", followed by the
update that sets `status` and `current_stage` again (and nothing else). -/
def errorWrites (msg : String) : List StoreWrite :=
  [ .progressW ("Error: " ++ truncateErr msg) 0 "error",
    .errorW ("Error: " ++ truncateErr msg) ]

/-- The sequence of store writes performed by `process_document_pipeline`,
as a function of the outcome of `file_service.extract_text` (`.error msg`
embeds an exception with message `msg` escaping `extract_text`).  The
explicit `raise Exception("Could not extract text from document")` fires on
empty (falsy) extracted text; `detect_language` raising `ZeroDivisionError`
(message "division by zero") is caught by the same `except` block. -/
def pipelineWrites (extraction : Except String String) : List StoreWrite :=
  .progressW "Extracting text from document" 20 "processing" ::
  match extraction with
  | .error msg => errorWrites msg
  | .ok text =>
    if text = "" then errorWrites "Could not extract text from document"
    else
      .progressW "Preparing for analysis" 60 "processing" ::
      match detect_language text with
      | none => errorWrites "division by zero"
      | some lang =>
        [ .progressW "Ready for AI analysis" 100 "ready",
          .readyW text text.length lang ]

/-- All store states reachable during one pipeline run, starting from the
row `d0` the upload handler created (includes `d0` itself). -/
def pipelineStates (d0 : Doc) (extraction : Except String String) : List Doc :=
  (pipelineWrites extraction).scanl applyWrite d0

/-- The `Document` row as created by the upload handler for an 11-byte
`doc.txt` (status "uploaded", stage "File uploaded", progress 0, optional
fields unset). -/
def docUploaded : Doc :=
  { filename := "doc.txt", file_size := 11, upload_time := 0,
    status := "uploaded", current_stage := "File uploaded", progress := 0,
    extracted_text := none, text_length := none, language := none }

/-! ## `ai_service` cache key (`_generate_cache_key`)

Source (`backend/app/services/ai_service.py`, lines 31-34):

```
content = f"{prompt}:{document_text}"
return f"gemini_cache:{hashlib.md5(content.encode()).hexdigest()}"
```

`hashlib.md5` is an external library collaborator; the embedded key is
parameterised over the hex-digest function `md5hex`, which is all the
claims about the key need: the key depends on the pair only through the
concatenation `prompt ++ ":" ++ document_text`. -/

def cacheKeyContent (promptText documentText : String) : String :=
  promptText ++ ":" ++ documentText

def generateCacheKey (md5hex : String → String) (promptText documentText : String) : String :=
  "gemini_cache:" ++ md5hex (cacheKeyContent promptText documentText)

/-! ## `ai_service` retry and error classification (`_call_gemini_api`)

Source (`backend/app/services/ai_service.py`, lines 64-117).  The function
is decorated with tenacity
`@retry(stop=stop_after_attempt(3), wait=wait_exponential(multiplier=1, min=4, max=10))`,
which retries on EVERY exception (there is no `retry=` filter), making at
most 3 attempts and re-raising the last exception.  One attempt:

* `self.model is None` → `HTTPException(503, ...)` (raised before the
  `try`, so it too escapes to the retry wrapper);
* the client call raises → the message is classified: "quota"/"rate limit"
  substring (lower-cased) → 429, "api key" → 401, anything else → 500
  `"AI service error: " + msg`;
* an empty response text → `HTTPException(500, "Empty response from Gemini
  API")` raised inside the `try`, hence caught and re-classified by the
  same `except` (no keyword matches, so it lands in the 500 branch).

The embedded `client` maps the attempt index to the raw outcome of
`self.model.generate_content` (`.error msg` embeds a raised exception whose
`str` is `msg`); the second component of the result counts the underlying
call attempts made. -/

/-- Substring test: `hasSubAux p l` is true iff `p` occurs contiguously in
`l` (Python's `p in l`). -/
def hasSubAux (p : List Char) : List Char → Bool
  | [] => decide (p = [])
  | c :: cs => decide (List.take p.length (c :: cs) = p) || hasSubAux p cs

def containsSub (s pat : String) : Bool :=
  hasSubAux pat.toList s.toList

inductive AIError where
  | notConfigured
  | rateLimited
  | unauthorized
  | serviceError (detail : String)
deriving DecidableEq

/-- The `except` block of `_call_gemini_api`: classify the exception
message. -/
def classifyError (msg : String) : AIError :=
  if containsSub (strLower msg) "quota" || containsSub (strLower msg) "rate limit" then
    .rateLimited
  else if containsSub (strLower msg) "api key" then
    .unauthorized
  else
    .serviceError ("AI service error: " ++ msg)

/-- One attempt of the decorated function body. -/
def attemptCall (configured : Bool) (client : Nat → Except String String)
    (i : Nat) : Except AIError String :=
  if configured = false then .error .notConfigured
  else
    match client i with
    | .ok resp => if resp = "" then .error (classifyError "Empty response from Gemini API") else .ok resp
    | .error msg => .error (classifyError msg)

/-- Tenacity's retry loop: `retryLoop att i n` runs attempt `i` and retries
a failure `n` more times (re-raising the last failure); the second
component is the number of attempts made. -/
def retryLoop (att : Nat → Except AIError String) : Nat → Nat → Except AIError String × Nat
  | i, 0 => (att i, 1)
  | i, n + 1 =>
    match att i with
    | .ok r => (.ok r, 1)
    | .error _ => ((retryLoop att (i + 1) n).1, (retryLoop att (i + 1) n).2 + 1)

/-- `_call_gemini_api` as seen by its callers: at most 3 attempts
(`stop_after_attempt(3)`). -/
def callGeminiApi (configured : Bool) (client : Nat → Except String String) :
    Except AIError String × Nat :=
  retryLoop (attemptCall configured client) 0 2

/-- Tenacity `wait_exponential(multiplier=1, min=4, max=10)`: the wait (in
seconds) after failed attempt number `n` is `1 * 2^n` clamped into
`[4, 10]`. -/
def waitExponential (attemptNumber : Nat) : Nat :=
  max 4 (min (2 ^ attemptNumber) 10)

/-! ## `ai_service.chunk_document`

Source (`backend/app/services/ai_service.py`, lines 147-169), with the
token estimate `len(word) / 0.75` and budget `max_tokens = 4000` scaled by
3 into `4 * len(word)` against `12000` (an exact embedding of the rational
comparison).  Words are the `List Char` tokens of `pySplitL`; emitted
chunks are re-joined with single spaces (`" ".join(current_chunk)`). -/

def joinSpaceL : List (List Char) → List Char
  | [] => []
  | [w] => w
  | w :: ws => w ++ ' ' :: joinSpaceL ws

/-- The chunk accumulation loop of `chunk_document`: `cur` is
`current_chunk` (in order), `len` is `3 * current_length` (the scaled
running estimate). -/
def chunkLoop : List (List Char) → List (List Char) → Nat → List (List (List Char))
  | [], cur, _ => if cur = [] then [] else [cur]
  | w :: ws, cur, len =>
    if len + 4 * w.length > 12000 ∧ cur ≠ [] then
      cur :: chunkLoop ws [w] (4 * w.length)
    else
      chunkLoop ws (cur ++ [w]) (len + 4 * w.length)

/-- `chunk_document(text)` with the default `max_tokens=4000`. -/
def chunk_document (text : String) : List String :=
  (chunkLoop (pySplitL text.toList) [] 0).map (fun ch => String.mk (joinSpaceL ch))

/-- The scaled estimated token count of a chunk string: three times the
claim's `sum over the chunk's words of len(word)/0.75`, so the claim's
budget `4000` becomes `12000`. -/
def chunkTokens (s : String) : Nat :=
  ((pySplitL s.toList).map (fun w => 4 * w.length)).sum

/-! ## The analyze endpoint (`backend/app/routers/analysis.py`, lines 150-234)

After the guards (document exists, status "ready", non-empty
`extracted_text`) the handler does NOT call `ai_service`: it builds a mock
response string (the source comments read "For now, return a simple
response since AI service needs to be implemented" and "Simple mock
response for testing") and persists it with metadata
`{"model": "mock-model", ...}`.  The embedding returns the persisted
`AIAnalysis` row fields together with the number of `ai_service`
invocations the handler performs, which is 0 by the source text (no
reference to `ai_service.analyze_document_chunked` or any other
`ai_service` call occurs in the handler).  `elapsedMs` abstracts the
wall-clock difference `int((time.time() - start_time) * 1000)`. -/

structure AnalysisMeta where
  model : String
  tokens_used : Nat
  chunks_processed : Nat
deriving DecidableEq

structure AnalysisRow where
  final_prompt : String
  gemini_response : Option String
  response_metadata : Option AnalysisMeta
  execution_time_ms : Option Nat
  error_message : Option String
deriving DecidableEq

def mockResponse (filename promptText preview : String) : String :=
  "Analysis of document '" ++ filename ++ "' with prompt: '" ++ promptText ++
    "'\n\nDocument content preview: " ++ preview ++ "..."

def analyzeEndpoint (findDoc : Option Doc) (promptText : String) (elapsedMs : Nat) :
    Except (Nat × String) AnalysisRow × Nat :=
  match findDoc with
  | none => (.error (404, "Document not found"), 0)
  | some doc =>
    if doc.status ≠ "ready" then
      (.error (400, "Document is not ready for analysis. Current status: " ++ doc.status), 0)
    else
      match doc.extracted_text with
      | none => (.error (400, "Document has no extracted text"), 0)
      | some text =>
        if text = "" then (.error (400, "Document has no extracted text"), 0)
        else
          (.ok { final_prompt := promptText,
                 gemini_response :=
                   some (mockResponse doc.filename promptText (pyTake text 200)),
                 response_metadata :=
                   some { model := "mock-model",
                          tokens_used := (pySplit text).length,
                          chunks_processed := 1 },
                 execution_time_ms := some elapsedMs,
                 error_message := none },
           0)

/-! ## Shared helper lemmas -/

lemma pyTake_length (s : String) (n : Nat) : (pyTake s n).length = min n s.length := by
  show (s.toList.take n).length = min n s.length
  simp [List.length_take]

lemma truncateErr_length_le (msg : String) : (truncateErr msg).length ≤ 403 := by
  unfold truncateErr
  split_ifs with h
  · rw [String.length_append, pyTake_length]
    have : min 400 msg.length ≤ 400 := min_le_left _ _
    have h3 : ("..." : String).length = 3 := rfl
    omega
  · omega

/-! ## Claim C1: the transition to "ready" -/

/-- Claim C1 (corrected), counterexample: the claim "in every reachable
store state a document with status `ready` has its `extracted_text`
already set" is false.  In a successful run on the text "hello world",
the third `update_progress` commit already sets `status = "ready"` while
`extracted_text` is still unset; only the separate fourth commit persists
the text. -/
theorem c1_ready_without_text :
    ∃ s ∈ pipelineStates docUploaded (Except.ok "hello world"),
      s.status = "ready" ∧ s.extracted_text = none := by
  decide

/-- Claim C1 (corrected, amended): a successful pipeline run performs
exactly four store updates.  The `extracted_text`, `text_length` and
`language` fields are persisted together in the single final update (so
that final write is atomic), but it is preceded by a separate, already
committed `update_progress` write that sets status "ready", stage "Ready
for AI analysis" and progress 100 with `extracted_text` still untouched;
hence a reachable intermediate state has status "ready" without
`extracted_text`, while the run's final state carries the text. -/
theorem c1_ready_two_writes (d0 : Doc) (text lang : String)
    (h1 : text ≠ "") (h2 : detect_language text = some lang) :
    pipelineStates d0 (Except.ok text) =
      [ d0,
        { d0 with current_stage := "Extracting text from document", progress := 20,
                  status := "processing" },
        { d0 with current_stage := "Preparing for analysis", progress := 60,
                  status := "processing" },
        { d0 with current_stage := "Ready for AI analysis", progress := 100,
                  status := "ready" },
        { d0 with current_stage := "Ready for AI analysis", progress := 100,
                  status := "ready", extracted_text := some text,
                  text_length := some text.length, language := some lang } ] := by
  simp [pipelineStates, pipelineWrites, h2, if_neg h1, List.scanl, applyWrite]

/-- Witness for `c1_ready_two_writes` at the concrete run of C1's
counterexample input. -/
theorem c1_ready_two_writes_witness :
    ("hello world" ≠ "" ∧ detect_language "hello world" = some "unknown") ∧
    pipelineStates docUploaded (Except.ok "hello world") =
      [ docUploaded,
        { docUploaded with current_stage := "Extracting text from document", progress := 20,
                           status := "processing" },
        { docUploaded with current_stage := "Preparing for analysis", progress := 60,
                           status := "processing" },
        { docUploaded with current_stage := "Ready for AI analysis", progress := 100,
                           status := "ready" },
        { docUploaded with current_stage := "Ready for AI analysis", progress := 100,
                           status := "ready", extracted_text := some "hello world",
                           text_length := some 11, language := some "unknown" } ] :=
  ⟨⟨by decide, by decide⟩,
    c1_ready_two_writes docUploaded "hello world" "unknown" (by decide) (by decide)⟩

/-! ## Claim C2: the analyze endpoint -/

/-- A `Document` row in the state the success pipeline leaves it for an
uploaded `doc.txt` containing "hello world". -/
def readyDoc : Doc :=
  { filename := "doc.txt", file_size := 11, upload_time := 0,
    status := "ready", current_stage := "Ready for AI analysis", progress := 100,
    extracted_text := some "hello world", text_length := some 11, language := some "unknown" }

/-- Claim C2 (code bug): on a ready document with non-empty extracted
text, the analyze endpoint does NOT invoke the `AnalysisOrchestrator`
(`ai_service.analyze_document_chunked`): it performs zero `ai_service`
calls and persists a hard-coded mock response built from the filename, the
prompt and the first 200 characters of the text, with metadata model
"mock-model" — the handler's own comments say the AI service path is not
implemented, while the fully implemented orchestrator in
`ai_service.py` is never called. -/
theorem c2_endpoint_returns_mock :
    analyzeEndpoint (some readyDoc) "Summarize this document" 0 =
      (Except.ok
        { final_prompt := "Summarize this document",
          gemini_response := some
            "Analysis of document 'doc.txt' with prompt: 'Summarize this document'\n\nDocument content preview: hello world...",
          response_metadata := some
            { model := "mock-model", tokens_used := 2, chunks_processed := 1 },
          execution_time_ms := some 0,
          error_message := none },
       0) := by
  rfl

/-! ## Claim C3: the cache key -/

/-- Claim C3 (corrected), counterexample: the key function is not
injective on distinct pairs.  The distinct pairs `("a:b", "c")` and
`("a", "b:c")` produce the same hashed content `"a:b:c"`, because the
separator ":" also occurs inside the inputs; hence they receive the same
cache key whatever digest function is applied. -/
theorem c3_cache_key_collision :
    cacheKeyContent "a:b" "c" = cacheKeyContent "a" "b:c" ∧
    ("a:b", "c") ≠ ("a", "b:c") := by
  exact ⟨rfl, by decide⟩

/-- Claim C3 (corrected, amended): the cache key is a deterministic
function of the pair — it depends on the pair only through the
concatenation `prompt ++ ":" ++ document_text`, so equal concatenations
(in particular identical pairs) give equal keys — but it is not injective
on distinct pairs: for every digest function, the distinct pairs
`("a:b", "c")` and `("a", "b:c")` receive the same key. -/
theorem c3_cache_key_determined (md5hex : String → String) (p1 t1 p2 t2 : String)
    (h : cacheKeyContent p1 t1 = cacheKeyContent p2 t2) :
    generateCacheKey md5hex p1 t1 = generateCacheKey md5hex p2 t2 ∧
    generateCacheKey md5hex "a:b" "c" = generateCacheKey md5hex "a" "b:c" := by
  constructor
  · unfold generateCacheKey
    rw [h]
  · unfold generateCacheKey
    rfl

/-- Witness for `c3_cache_key_determined` at a concrete digest function
and concrete pair. -/
theorem c3_cache_key_determined_witness :
    cacheKeyContent "p" "t" = cacheKeyContent "p" "t" ∧
    (generateCacheKey (fun s => s) "p" "t" = generateCacheKey (fun s => s) "p" "t" ∧
     generateCacheKey (fun s => s) "a:b" "c" = generateCacheKey (fun s => s) "a" "b:c") :=
  ⟨rfl, c3_cache_key_determined (fun s => s) "p" "t" "p" "t" rfl⟩

/-! ## Claim C4: retry policy -/

/-- Claim C4 (corrected), counterexample: a client that always fails with
message "invalid api key" is classified Unauthorized but IS retried — the
tenacity decorator has no `retry=` filter, so the call is attempted 3
times, not once. -/
theorem c4_api_key_retried :
    (callGeminiApi true (fun _ => Except.error "invalid api key")).1 =
      Except.error AIError.unauthorized ∧
    (callGeminiApi true (fun _ => Except.error "invalid api key")).2 = 3 ∧
    (callGeminiApi true (fun _ => Except.error "invalid api key")).2 ≠ 1 := by
  exact ⟨rfl, rfl, by decide⟩

/-- Claim C4 (corrected, amended): the decorated call makes at most 3
attempts and retries on EVERY failure, with tenacity waits
`max 4 (min 2^n 10)` seconds (4s after the first and second failed
attempts, capped at 10s).  A permanently failing "invalid api key" client
is attempted 3 times and then surfaces as Unauthorized; a client failing
transiently twice and succeeding on the third attempt yields the success
after exactly 3 attempts. -/
theorem c4_retry_policy (client transientClient : Nat → Except String String)
    (ht0 : transientClient 0 = Except.error "temporary glitch")
    (ht1 : transientClient 1 = Except.error "temporary glitch")
    (ht2 : transientClient 2 = Except.ok "result") :
    (callGeminiApi true client).2 ≤ 3 ∧
    callGeminiApi true (fun _ => Except.error "invalid api key") =
      (Except.error AIError.unauthorized, 3) ∧
    callGeminiApi true transientClient = (Except.ok "result", 3) ∧
    waitExponential 1 = 4 ∧ waitExponential 2 = 4 ∧ waitExponential 9 = 10 := by
  refine ⟨?_, rfl, ?_, by decide, by decide, by decide⟩
  · unfold callGeminiApi
    rcases h0 : attemptCall true client 0 with e0 | r0
    · rcases h1 : attemptCall true client 1 with e1 | r1
      · rcases h2 : attemptCall true client 2 with e2 | r2 <;>
          simp [retryLoop, h0, h1, h2]
      · simp [retryLoop, h0, h1]
    · simp [retryLoop, h0]
  · have a0 : attemptCall true transientClient 0 =
        Except.error (classifyError "temporary glitch") := by
      simp [attemptCall, ht0]
    have a1 : attemptCall true transientClient 1 =
        Except.error (classifyError "temporary glitch") := by
      simp [attemptCall, ht1]
    have a2 : attemptCall true transientClient 2 = Except.ok "result" := by
      simp [attemptCall, ht2]
    unfold callGeminiApi
    simp [retryLoop, a0, a1, a2]

/-- Witness for `c4_retry_policy` at concrete clients. -/
theorem c4_retry_policy_witness :
    ((fun i => if i < 2 then Except.error "temporary glitch" else Except.ok "result") :
        Nat → Except String String) 0 = Except.error "temporary glitch" ∧
    (callGeminiApi true (fun _ => Except.ok "fine")).2 ≤ 3 ∧
    callGeminiApi true
        (fun i => if i < 2 then Except.error "temporary glitch" else Except.ok "result") =
      (Except.ok "result", 3) :=
  ⟨rfl,
   (c4_retry_policy (fun _ => Except.ok "fine")
      (fun i => if i < 2 then Except.error "temporary glitch" else Except.ok "result")
      rfl rfl rfl).1,
   (c4_retry_policy (fun _ => Except.ok "fine")
      (fun i => if i < 2 then Except.error "temporary glitch" else Except.ok "result")
      rfl rfl rfl).2.2.1⟩

/-! ## Claim C9: detect_language -/

/-- Claim C9 (corrected), counterexample: on the non-empty, all-whitespace
input " " the guard `if not text` does not fire, `text.lower().split()`
is empty, and `english_count / len(words)` divides by zero (embedded as
`none`), so `detect_language` does not "terminate without dividing by zero
for every input string". -/
theorem c9_div_by_zero : detect_language " " = none := by
  rfl

/-- Claim C9 (corrected, amended): the empty string returns "unknown"; the
division by zero occurs exactly on non-empty inputs whose lower-cased
whitespace split is empty; and on every input with at least one token the
function returns "en" exactly when the fraction of its first 100
lower-cased tokens that belong to the fixed English function-word list
exceeds 1/10 (the float comparison of the source agrees with this exact
rational comparison). -/
theorem c9_language_fraction (text : String) :
    detect_language "" = some "unknown" ∧
    (detect_language text = none ↔
      text ≠ "" ∧ (pySplit (strLower text)).take 100 = []) ∧
    (text ≠ "" → (pySplit (strLower text)).take 100 ≠ [] →
      (detect_language text = some "en" ↔
        (1 : ℚ) / 10 <
          (((pySplit (strLower text)).take 100).countP
              (fun w => englishWords.contains w) : ℚ) /
            (((pySplit (strLower text)).take 100).length : ℚ))) := by
  refine ⟨rfl, ?_, ?_⟩
  · by_cases ht : text = ""
    · subst ht
      simp [detect_language]
    · by_cases hw : ((pySplit (strLower text)).take 100).length = 0
      · rw [List.length_eq_zero] at hw
        simp [detect_language, ht, hw]
      · have hw' : ¬ ((pySplit (strLower text)).take 100) = [] := by
          intro h
          exact hw (by rw [h]; rfl)
        rw [detect_language, if_neg ht, if_neg (by rwa [List.length_eq_zero])]
        split_ifs <;> simp [ht, hw']
  · intro ht hw
    have hlen : 0 < ((pySplit (strLower text)).take 100).length :=
      List.length_pos.mpr hw
    have hlenQ : (0 : ℚ) < (((pySplit (strLower text)).take 100).length : ℚ) := by
      exact_mod_cast hlen
    have hdef : detect_language text = some "en" ↔
        ((pySplit (strLower text)).take 100).length <
          10 * ((pySplit (strLower text)).take 100).countP
            (fun w => englishWords.contains w) := by
      rw [detect_language, if_neg ht,
        if_neg (by rw [List.length_eq_zero]; exact hw)]
      split_ifs with hcond
      · exact iff_of_true rfl hcond
      · exact iff_of_false (by simp) hcond
    rw [hdef, div_lt_div_iff₀ (by norm_num) hlenQ, one_mul]
    constructor
    · intro h
      have : (((pySplit (strLower text)).take 100).length : ℚ) <
          ((10 * ((pySplit (strLower text)).take 100).countP
            (fun w => englishWords.contains w) : Nat) : ℚ) := by
        exact_mod_cast h
      calc (((pySplit (strLower text)).take 100).length : ℚ)
          < _ := this
        _ = _ := by push_cast; ring
    · intro h
      have h' : (((pySplit (strLower text)).take 100).length : ℚ) <
          ((10 * ((pySplit (strLower text)).take 100).countP
            (fun w => englishWords.contains w) : Nat) : ℚ) := by
        calc (((pySplit (strLower text)).take 100).length : ℚ)
            < _ := h
          _ = _ := by push_cast; ring
      exact_mod_cast h'

/-- Witness for `c9_language_fraction`: on "the the the" all three tokens
are English function words, the fraction 3/3 exceeds 1/10, and the result
is "en". -/
theorem c9_language_fraction_witness :
    detect_language "" = some "unknown" ∧
    (detect_language "the the the" = some "en" ↔
      (1 : ℚ) / 10 <
        (((pySplit (strLower "the the the")).take 100).countP
            (fun w => englishWords.contains w) : ℚ) /
          (((pySplit (strLower "the the the")).take 100).length : ℚ)) :=
  ⟨(c9_language_fraction "x").1,
   (c9_language_fraction "the the the").2.2 (by decide) (by decide)⟩

/-! ## Claim C10: frame of the error transition -/

/-- The error transition of the pipeline (the two store updates of the
`except` block) applied to a document row. -/
def applyErrorTransition (d : Doc) (msg : String) : Doc :=
  (errorWrites msg).foldl applyWrite d

/-- Claim C10 (confirmed): the error transition modifies only `status`,
`current_stage` and `progress`; `filename`, `file_size`, `upload_time`,
`extracted_text`, `text_length` and `language` keep the values they had
before the failure, while status becomes "error", progress 0 and the stage
the prefixed, truncated message. -/
theorem c10_error_frame (d : Doc) (msg : String) :
    (applyErrorTransition d msg).filename = d.filename ∧
    (applyErrorTransition d msg).file_size = d.file_size ∧
    (applyErrorTransition d msg).upload_time = d.upload_time ∧
    (applyErrorTransition d msg).extracted_text = d.extracted_text ∧
    (applyErrorTransition d msg).text_length = d.text_length ∧
    (applyErrorTransition d msg).language = d.language ∧
    (applyErrorTransition d msg).status = "error" ∧
    (applyErrorTransition d msg).progress = 0 ∧
    (applyErrorTransition d msg).current_stage = "Error: " ++ truncateErr msg := by
  simp [applyErrorTransition, errorWrites, applyWrite]

/-! ## Claim C7: empty/failed extraction lands in error -/

/-- A 401-character exception message. -/
def longMsg : String := String.mk (List.replicate 401 'x')

/-- Claim C7 (corrected), counterexample: when extraction fails with a
401-character message, the final document state does land in status
"error" with progress 0, but its stage is NOT capped at 400 characters:
the stage is `"Error: " + msg[:400] + "..."`, 410 characters long. -/
theorem c7_stage_exceeds_400 :
    ((pipelineWrites (Except.error longMsg)).foldl applyWrite docUploaded).status = "error" ∧
    ((pipelineWrites (Except.error longMsg)).foldl applyWrite docUploaded).progress = 0 ∧
    ((pipelineWrites (Except.error longMsg)).foldl applyWrite docUploaded).current_stage.length
      = 410 := by
  refine ⟨rfl, rfl, ?_⟩
  have hst : ((pipelineWrites (Except.error longMsg)).foldl applyWrite docUploaded).current_stage
      = "Error: " ++ truncateErr longMsg := rfl
  have hlen : longMsg.length = 401 := by
    show (List.replicate 401 'x').length = 401
    exact List.length_replicate 401 'x'
  have htr : truncateErr longMsg = pyTake longMsg 400 ++ "..." := by
    unfold truncateErr
    rw [if_pos (by rw [hlen]; norm_num)]
  rw [hst, htr, String.length_append, String.length_append, pyTake_length, hlen]
  rfl

/-- Claim C7 (corrected, amended): on failed extraction (any message) and
on empty extracted text, the pipeline drives the document to status
"error" with progress 0 and stage `"Error: "` followed by the error
message truncated to 400 characters with "..." appended when truncated —
so the whole stage is capped at 410 (not 400) characters; and no reachable
state of any run has status "ready" together with empty extracted text. -/
theorem c7_error_path (d0 : Doc) (msg text : String)
    (hup : d0.status = "uploaded") (hx : d0.extracted_text = none) :
    ((pipelineWrites (Except.error msg)).foldl applyWrite d0).status = "error" ∧
    ((pipelineWrites (Except.error msg)).foldl applyWrite d0).progress = 0 ∧
    ((pipelineWrites (Except.error msg)).foldl applyWrite d0).current_stage
      = "Error: " ++ truncateErr msg ∧
    ("Error: " ++ truncateErr msg).length ≤ 410 ∧
    ((pipelineWrites (Except.ok "")).foldl applyWrite d0).status = "error" ∧
    ((pipelineWrites (Except.ok "")).foldl applyWrite d0).progress = 0 ∧
    ((pipelineWrites (Except.ok "")).foldl applyWrite d0).current_stage
      = "Error: Could not extract text from document" ∧
    (∀ s ∈ pipelineStates d0 (Except.ok text), s.status = "ready" →
      s.extracted_text ≠ some "") := by
  refine ⟨rfl, rfl, rfl, ?_, rfl, rfl, rfl, ?_⟩
  · rw [String.length_append]
    have := truncateErr_length_le msg
    have h7 : ("Error: " : String).length = 7 := rfl
    omega
  · intro s hs hready
    by_cases htext : text = ""
    · subst htext
      simp only [pipelineStates, pipelineWrites, errorWrites, reduceIte, List.scanl,
        List.mem_cons, List.not_mem_nil, or_false] at hs
      rcases hs with h | h | h | h <;> subst h <;>
        simp [applyWrite, hup] at hready ⊢
    · rcases hdl : detect_language text with _ | lang
      · simp only [pipelineStates, pipelineWrites, if_neg htext, hdl, errorWrites,
          List.scanl, List.mem_cons, List.not_mem_nil, or_false] at hs
        rcases hs with h | h | h | h | h <;> subst h <;>
          simp [applyWrite, hup] at hready ⊢
      · simp only [pipelineStates, pipelineWrites, if_neg htext, hdl, List.scanl,
          List.mem_cons, List.not_mem_nil, or_false] at hs
        rcases hs with h | h | h | h | h <;> subst h <;>
          simp_all [applyWrite, hup, hx]

/-- Witness for `c7_error_path` at a concrete run. -/
theorem c7_error_path_witness :
    (docUploaded.status = "uploaded" ∧ docUploaded.extracted_text = none) ∧
    ((pipelineWrites (Except.error "boom")).foldl applyWrite docUploaded).status = "error" ∧
    ((pipelineWrites (Except.error "boom")).foldl applyWrite docUploaded).progress = 0 ∧
    ((pipelineWrites (Except.ok "")).foldl applyWrite docUploaded).current_stage
      = "Error: Could not extract text from document" :=
  ⟨⟨rfl, rfl⟩,
   (c7_error_path docUploaded "boom" "hello world" rfl rfl).1,
   (c7_error_path docUploaded "boom" "hello world" rfl rfl).2.1,
   (c7_error_path docUploaded "boom" "hello world" rfl rfl).2.2.2.2.2.2.1⟩

/-! ## Claim C8: progress monotonicity -/

/-- The progress values written over a run: the sub-sequence of store
writes that set the `progress` field, with the status written alongside
(the error path's second update does not touch `progress`). -/
def progressPairs : List StoreWrite → List (Nat × String)
  | [] => []
  | .progressW _ p s :: ws => (p, s) :: progressPairs ws
  | .readyW _ _ _ :: ws => (100, "ready") :: progressPairs ws
  | .errorW _ :: ws => progressPairs ws

/-- An admissible adjacent step of written progress values: non-decreasing,
or the reset to 0 that co-occurs with the transition to status "error". -/
def progressStep (a b : Nat × String) : Prop :=
  a.1 ≤ b.1 ∨ (b.1 = 0 ∧ b.2 = "error")

instance (a b : Nat × String) : Decidable (progressStep a b) :=
  inferInstanceAs (Decidable (a.1 ≤ b.1 ∨ (b.1 = 0 ∧ b.2 = "error")))

/-- Claim C8 (confirmed): for every extraction outcome, the sequence of
progress values written by the pipeline, starting from the uploaded
record's 0, is non-decreasing except for the reset to 0 written together
with the transition to status "error", and a progress write with status
"error" is always the last progress write of the run (terminal). -/
theorem c8_progress_monotone (ext : Except String String) :
    List.Chain' progressStep ((0, "uploaded") :: progressPairs (pipelineWrites ext)) ∧
    (progressPairs (pipelineWrites ext)).dropLast.all (fun p => p.2 != "error") = true := by
  rcases ext with msg | text
  · constructor
    · show List.Chain' progressStep [(0, "uploaded"), (20, "processing"), (0, "error")]
      simp [List.chain'_cons, List.chain'_singleton, progressStep]
    · rfl
  · by_cases htext : text = ""
    · subst htext
      constructor
      · show List.Chain' progressStep [(0, "uploaded"), (20, "processing"), (0, "error")]
        simp [List.chain'_cons, List.chain'_singleton, progressStep]
      · rfl
    · rcases hdl : detect_language text with _ | lang
      · have hpp : progressPairs (pipelineWrites (Except.ok text)) =
            [(20, "processing"), (60, "processing"), (0, "error")] := by
          simp [pipelineWrites, if_neg htext, hdl, errorWrites, progressPairs]
        rw [hpp]
        exact ⟨by simp [List.chain'_cons, List.chain'_singleton, progressStep], rfl⟩
      · have hpp : progressPairs (pipelineWrites (Except.ok text)) =
            [(20, "processing"), (60, "processing"), (100, "ready"), (100, "ready")] := by
          simp [pipelineWrites, if_neg htext, hdl, progressPairs]
        rw [hpp]
        exact ⟨by simp [List.chain'_cons, List.chain'_singleton, progressStep], rfl⟩

/-- Witness for `c8_progress_monotone` at a concrete successful run. -/
theorem c8_progress_monotone_witness :
    List.Chain' progressStep
      ((0, "uploaded") :: progressPairs (pipelineWrites (Except.ok "hello world"))) ∧
    (progressPairs (pipelineWrites (Except.ok "hello world"))).dropLast.all
      (fun p => p.2 != "error") = true :=
  c8_progress_monotone (Except.ok "hello world")

/-! ## Lemmas about splitting and chunking (shared by claims C5 and C6) -/

/-- Reading a whitespace-free block `w` extends the current word. -/
lemma splitWAux_shift : ∀ (w cur l : List Char), (∀ c ∈ w, isPySpace c = false) →
    splitWAux cur (w ++ l) = splitWAux (cur ++ w) l := by
  intro w
  induction w with
  | nil => intro cur l _; simp
  | cons c w ih =>
    intro cur l hw
    have hc : isPySpace c = false := hw c (by simp)
    show splitWAux cur (c :: (w ++ l)) = _
    simp only [splitWAux, hc, Bool.false_eq_true, if_false]
    rw [ih (cur ++ [c]) l (fun x hx => hw x (by simp [hx]))]
    simp

/-- Every word produced by the split is non-empty and whitespace-free. -/
lemma splitWAux_good : ∀ (l cur : List Char), (∀ c ∈ cur, isPySpace c = false) →
    ∀ w ∈ splitWAux cur l, w ≠ [] ∧ ∀ c ∈ w, isPySpace c = false := by
  intro l
  induction l with
  | nil =>
    intro cur hcur w hw
    by_cases h : cur = []
    · simp [splitWAux, h] at hw
    · simp only [splitWAux, if_neg h, List.mem_singleton] at hw
      subst hw
      exact ⟨h, hcur⟩
  | cons c cs ih =>
    intro cur hcur w hw
    by_cases hsp : isPySpace c = true
    · by_cases h : cur = []
      · simp only [splitWAux, hsp, if_true, h, if_pos] at hw
        exact ih [] (by simp) w hw
      · simp only [splitWAux, hsp, if_true, if_neg h, List.mem_cons] at hw
        rcases hw with rfl | hw
        · exact ⟨h, hcur⟩
        · exact ih [] (by simp) w hw
    · have hsp' : isPySpace c = false := by
        revert hsp
        cases isPySpace c <;> simp
      simp only [splitWAux, hsp', Bool.false_eq_true, if_false] at hw
      refine ih (cur ++ [c]) ?_ w hw
      intro x hx
      rcases List.mem_append.mp hx with h1 | h1
      · exact hcur x h1
      · rw [List.mem_singleton.mp h1]
        exact hsp'

/-- Flattening the chunks recovers the pending word plus the remaining
words: nothing is lost or duplicated by the chunk loop. -/
lemma chunkLoop_join : ∀ (ws cur : List (List Char)) (len : Nat),
    (chunkLoop ws cur len).flatten = cur ++ ws := by
  intro ws
  induction ws with
  | nil =>
    intro cur len
    by_cases h : cur = [] <;> simp [chunkLoop, h]
  | cons w ws ih =>
    intro cur len
    by_cases h : len + 4 * w.length > 12000 ∧ cur ≠ []
    · simp only [chunkLoop, if_pos h, List.flatten_cons]
      rw [ih]
      simp
    · simp only [chunkLoop, if_neg h]
      rw [ih]
      simp

/-- Every emitted chunk is a non-empty word list. -/
lemma chunkLoop_chunks_ne_nil : ∀ (ws cur : List (List Char)) (len : Nat) (c : List (List Char)),
    c ∈ chunkLoop ws cur len → c ≠ [] := by
  intro ws
  induction ws with
  | nil =>
    intro cur len c hc
    by_cases h : cur = []
    · simp [chunkLoop, h] at hc
    · simp only [chunkLoop, if_neg h, List.mem_singleton] at hc
      subst hc
      exact h
  | cons w ws ih =>
    intro cur len c hc
    by_cases h : len + 4 * w.length > 12000 ∧ cur ≠ []
    · simp only [chunkLoop, if_pos h, List.mem_cons] at hc
      rcases hc with rfl | hc
      · exact h.2
      · exact ih _ _ _ hc
    · simp only [chunkLoop, if_neg h] at hc
      exact ih _ _ _ hc

/-- Every word of an emitted chunk comes from the input word list. -/
lemma chunkLoop_mem_words (ws cur : List (List Char)) (len : Nat) (c : List (List Char))
    (hc : c ∈ chunkLoop ws cur len) : ∀ w ∈ c, w ∈ cur ++ ws := by
  intro w hw
  have hmem : w ∈ (chunkLoop ws cur len).flatten := List.mem_flatten.mpr ⟨c, hc, hw⟩
  rwa [chunkLoop_join] at hmem

/-- Splitting the space-joined chunk recovers its word list exactly, for
non-empty lists of non-empty whitespace-free words. -/
lemma pySplitL_joinSpace : ∀ (ch : List (List Char)), ch ≠ [] →
    (∀ w ∈ ch, w ≠ [] ∧ ∀ c ∈ w, isPySpace c = false) →
    pySplitL (joinSpaceL ch) = ch
  | [], h, _ => absurd rfl h
  | [w], _, hg => by
    have hw := hg w (by simp)
    have h2 := splitWAux_shift w [] [] hw.2
    rw [List.append_nil, List.nil_append] at h2
    show splitWAux [] (joinSpaceL [w]) = [w]
    rw [show joinSpaceL [w] = w from rfl, h2]
    simp [splitWAux, hw.1]
  | w :: x :: ch', _, hg => by
    have hw := hg w (by simp)
    have hgt : ∀ u ∈ x :: ch', u ≠ [] ∧ ∀ c ∈ u, isPySpace c = false :=
      fun u hu => hg u (List.mem_cons_of_mem _ hu)
    have hrec := pySplitL_joinSpace (x :: ch') (by simp) hgt
    show splitWAux [] (joinSpaceL (w :: x :: ch')) = w :: x :: ch'
    rw [show joinSpaceL (w :: x :: ch') = w ++ (' ' :: joinSpaceL (x :: ch')) from rfl,
      splitWAux_shift w [] _ hw.2, List.nil_append]
    have hstep : splitWAux w (' ' :: joinSpaceL (x :: ch')) =
        w :: splitWAux [] (joinSpaceL (x :: ch')) := by
      simp [splitWAux, isPySpace, hw.1]
    rw [hstep, show splitWAux [] (joinSpaceL (x :: ch')) =
      pySplitL (joinSpaceL (x :: ch')) from rfl, hrec]

/-- The scaled estimated token count of a word list (each word contributes
`4 * length`, i.e. three times `length / 0.75`). -/
def tokenSumW (ws : List (List Char)) : Nat :=
  (ws.map (fun w => 4 * w.length)).sum

/-- Budget invariant of the chunk loop: every emitted chunk is within the
scaled budget or is a single word (whose own estimate may exceed it). -/
lemma chunkLoop_budget : ∀ (ws cur : List (List Char)) (len : Nat),
    len = tokenSumW cur →
    (cur = [] ∨ tokenSumW cur ≤ 12000 ∨ ∃ w, cur = [w]) →
    ∀ c ∈ chunkLoop ws cur len, tokenSumW c ≤ 12000 ∨ ∃ w, c = [w] := by
  intro ws
  induction ws with
  | nil =>
    intro cur len hlen hinv c hc
    by_cases h : cur = []
    · simp [chunkLoop, h] at hc
    · simp only [chunkLoop, if_neg h, List.mem_singleton] at hc
      subst hc
      rcases hinv with h1 | h2 | h3
      · exact absurd h1 h
      · exact Or.inl h2
      · exact Or.inr h3
  | cons w ws ih =>
    intro cur len hlen hinv c hc
    by_cases h : len + 4 * w.length > 12000 ∧ cur ≠ []
    · simp only [chunkLoop, if_pos h, List.mem_cons] at hc
      rcases hc with rfl | hc
      · rcases hinv with h1 | h2 | h3
        · exact absurd h1 h.2
        · exact Or.inl h2
        · exact Or.inr h3
      · exact ih [w] (4 * w.length) (by simp [tokenSumW]) (Or.inr (Or.inr ⟨w, rfl⟩)) c hc
    · simp only [chunkLoop, if_neg h] at hc
      have hsum : tokenSumW (cur ++ [w]) = tokenSumW cur + 4 * w.length := by
        simp [tokenSumW]
      refine ih (cur ++ [w]) (len + 4 * w.length) (by rw [hsum, hlen]) ?_ c hc
      by_cases hcur : cur = []
      · subst hcur
        exact Or.inr (Or.inr ⟨w, by simp⟩)
      · rcases not_and_or.mp h with h1 | h2
        · refine Or.inr (Or.inl ?_)
          rw [hsum, ← hlen]
          omega
        · exact absurd hcur h2

/-! ## Claim C5: chunk token budget -/

/-- A single 3001-character word: its scaled token estimate is
`4 * 3001 = 12004 > 12000` (i.e. `3001 / 0.75 ≈ 4001.3 > 4000`). -/
def bigWord : String := String.mk (List.replicate 3001 'a')

/-- Claim C5 (corrected), counterexample: the guard `and current_chunk`
lets the first word of a chunk in unconditionally, so a single word whose
own estimate exceeds the budget yields a chunk over budget: chunking a
single 3001-character word produces that word as a chunk with estimated
token count `3001 / 0.75 > 4000` (scaled: `12004 > 12000`). -/
theorem c5_budget_exceeded :
    ∃ c ∈ chunk_document bigWord, 12000 < chunkTokens c := by
  have hgood : ∀ ch ∈ List.replicate 3001 'a', isPySpace ch = false := by
    intro ch hch
    rw [List.eq_of_mem_replicate hch]
    rfl
  have hne : (List.replicate 3001 'a') ≠ [] := by
    intro h
    have hlen := congrArg List.length h
    rw [List.length_replicate, List.length_nil] at hlen
    exact absurd hlen (by norm_num)
  have hsplit : pySplitL (List.replicate 3001 'a') = [List.replicate 3001 'a'] := by
    have h2 := splitWAux_shift (List.replicate 3001 'a') [] [] hgood
    rw [List.append_nil, List.nil_append] at h2
    unfold pySplitL
    rw [h2]
    show (if List.replicate 3001 'a' = ([] : List Char) then ([] : List (List Char))
          else [List.replicate 3001 'a']) = [List.replicate 3001 'a']
    rw [if_neg hne]
  refine ⟨bigWord, ?_, ?_⟩
  · unfold chunk_document
    rw [show bigWord.toList = List.replicate 3001 'a' from rfl, hsplit]
    have hcond : ¬(0 + 4 * (List.replicate 3001 'a').length > 12000 ∧
        (([] : List (List Char)) ≠ [])) := by
      rintro ⟨_, h2⟩
      exact h2 rfl
    have hloop : chunkLoop [List.replicate 3001 'a'] [] 0 = [[List.replicate 3001 'a']] := by
      show (if 0 + 4 * (List.replicate 3001 'a').length > 12000 ∧ (([] : List (List Char)) ≠ [])
            then [] :: chunkLoop [] [List.replicate 3001 'a'] (4 * (List.replicate 3001 'a').length)
            else chunkLoop [] ([] ++ [List.replicate 3001 'a']) (0 + 4 * (List.replicate 3001 'a').length))
          = [[List.replicate 3001 'a']]
      rw [if_neg hcond]
      show (if ([List.replicate 3001 'a'] : List (List Char)) = [] then ([] : List (List (List Char)))
            else [[List.replicate 3001 'a']]) = [[List.replicate 3001 'a']]
      rw [if_neg (List.cons_ne_nil _ _)]
    rw [hloop]
    simp only [List.map_cons, List.map_nil]
    exact List.mem_singleton.mpr rfl
  · unfold chunkTokens
    rw [show bigWord.toList = List.replicate 3001 'a' from rfl, hsplit]
    simp only [List.map_cons, List.map_nil, List.sum_cons, List.sum_nil, List.length_replicate]
    norm_num

/-- Claim C5 (corrected, amended): every chunk produced by
`chunk_document` satisfies the scaled token budget (`sum of
4 * len(word) ≤ 12000`, i.e. `sum of len(word)/0.75 ≤ 4000`) or consists
of a single word (whose own estimate exceeds the budget); budget overruns
can only come from one oversized word standing alone in its chunk. -/
theorem c5_chunk_budget (text c : String) (hc : c ∈ chunk_document text) :
    chunkTokens c ≤ 12000 ∨ (pySplitL c.toList).length = 1 := by
  unfold chunk_document at hc
  rcases List.mem_map.mp hc with ⟨ch, hch, rfl⟩
  have hgood : ∀ w ∈ pySplitL text.toList, w ≠ [] ∧ ∀ c ∈ w, isPySpace c = false :=
    splitWAux_good _ [] (by simp)
  have hchgood : ∀ w ∈ ch, w ≠ [] ∧ ∀ c ∈ w, isPySpace c = false := by
    intro w hw
    have hmem := chunkLoop_mem_words _ _ _ ch hch w hw
    simp only [List.nil_append] at hmem
    exact hgood w hmem
  have hne : ch ≠ [] := chunkLoop_chunks_ne_nil _ _ _ ch hch
  have hsplit : pySplitL (String.mk (joinSpaceL ch)).toList = ch := by
    show pySplitL (joinSpaceL ch) = ch
    exact pySplitL_joinSpace ch hne hchgood
  have hbud := chunkLoop_budget (pySplitL text.toList) [] 0 rfl (Or.inl rfl) ch hch
  rcases hbud with h | ⟨w, rfl⟩
  · left
    unfold chunkTokens
    rw [hsplit]
    exact h
  · right
    rw [hsplit]
    rfl

/-- Witness for `c5_chunk_budget` on the two-word text "a b", whose single
chunk "a b" is within budget. -/
theorem c5_chunk_budget_witness :
    "a b" ∈ chunk_document "a b" ∧
    (chunkTokens "a b" ≤ 12000 ∨ (pySplitL "a b".toList).length = 1) :=
  ⟨by decide, c5_chunk_budget "a b" "a b" (by decide)⟩

/-! ## Claim C6: chunking is lossless on the word sequence -/

/-- Claim C6 (confirmed): for every input text, concatenating the
whitespace-split word sequences of the returned chunks, in order, yields
exactly the whitespace-split word sequence of the original text — no word
is lost, duplicated or split mid-word, and the trailing partial chunk is
included. -/
theorem c6_chunking_lossless (text : String) :
    (List.map pySplit (chunk_document text)).flatten = pySplit text := by
  unfold chunk_document pySplit
  have hgood : ∀ w ∈ pySplitL text.toList, w ≠ [] ∧ ∀ c ∈ w, isPySpace c = false :=
    splitWAux_good _ [] (by simp)
  rw [List.map_map]
  have hcong : ∀ ch ∈ chunkLoop (pySplitL text.toList) [] 0,
      ((fun s => (pySplitL s.toList).map (fun w => String.mk w)) ∘
        (fun ch => String.mk (joinSpaceL ch))) ch =
        ch.map (fun w => String.mk w) := by
    intro ch hch
    have hne : ch ≠ [] := chunkLoop_chunks_ne_nil _ _ _ ch hch
    have hchgood : ∀ w ∈ ch, w ≠ [] ∧ ∀ c ∈ w, isPySpace c = false := by
      intro w hw
      have hmem := chunkLoop_mem_words _ _ _ ch hch w hw
      simp only [List.nil_append] at hmem
      exact hgood w hmem
    show (pySplitL (String.mk (joinSpaceL ch)).toList).map (fun w => String.mk w) = _
    rw [show (String.mk (joinSpaceL ch)).toList = joinSpaceL ch from rfl,
      pySplitL_joinSpace ch hne hchgood]
  rw [List.map_congr_left hcong, ← List.map_flatten, chunkLoop_join]
  simp
